import Mathlib

/-!
Verification of the stock-balance monitoring pipeline (`monitor_combined.py`).

The development shallowly embeds the change-detection and durable-delivery
core of the repository:

* `parse_balance_data` — the multi-row-header grid parser;
* `detect_balance_changes` / `detect_chicken_difference_changes` /
  `detect_gizzard_difference_changes` — the snapshot diffing engine;
* `calculate_total_pieces` / `calculate_current_differences` — the derived
  scalar metrics;
* `encrypt_state_data` / `save_current_state` / `load_previous_state` — the
  encrypted snapshot store (Fernet authenticated encryption and pickle
  serialization are modelled as an abstract key-tagged box; their round-trip
  correctness is a property of those libraries, not of this repository);
* `send_combined_alert` with the tenacity retry decorator and the pybreaker
  circuit breaker, and the dead-letter queue (`save_failed_webhook`).

Python floats are modelled as rationals (`ℚ`), Python strings as `List Char`
(`str.strip` strips the ASCII whitespace recognised by `Char.isWhitespace`),
and spreadsheet grids as lists of rows of cells.  Stateful file writes are
modelled by explicit state passing, and exceptions by `Except` or by an
explicit exception value in a result tuple.
-/

namespace KadunaMonitor

/-- A Python string, modelled as its list of characters. -/
abbrev PyStr := List Char

/-- Model of `str.strip()`: drop leading and trailing whitespace. -/
def pyStrip (s : PyStr) : PyStr :=
  ((s.dropWhile Char.isWhitespace).reverse.dropWhile Char.isWhitespace).reverse

/-- Python substring membership `needle in hay` (for a non-empty needle):
true iff `needle` occurs contiguously in `hay`. -/
def pyContains (needle : PyStr) : PyStr → Bool
  | [] => needle.isEmpty
  | c :: rest => needle.isPrefixOf (c :: rest) || pyContains needle rest

/-- A raw spreadsheet grid: rows of cells, rows may have unequal length. -/
abbrev Grid := List (List PyStr)

/-- One parsed balance column, as produced by `parse_balance_data`. -/
structure ParsedColumn where
  col_index : ℕ
  product : PyStr
  grade : PyStr
  metric : PyStr
  value : PyStr
deriving DecidableEq, Repr

/-- The reserved row-0 labels whose columns are skipped by the parser. -/
def reservedProducts : List PyStr := ["DATE".toList, "NOTES".toList]

/-- Model of `row[i].strip() if i < len(row) and row[i] else ""`: a bounds-checked,
stripped cell read (an out-of-range or empty cell reads as `""`). -/
def cellAt (row : List PyStr) (i : ℕ) : PyStr :=
  pyStrip (row.getD i [])

/-- Model of `row_data[i].strip() if i < len(row_data) and row_data[i] else "0"`:
the data-row read, defaulting to `"0"` for out-of-range or empty cells. -/
def dataCellAt (row : List PyStr) (i : ℕ) : PyStr :=
  if row.getD i [] = [] then "0".toList else pyStrip (row.getD i [])

/-- Carry-forward state of the column scan in `parse_balance_data`:
the current product, the current grade, and the columns emitted so far. -/
structure ParseState where
  curProduct : PyStr
  curGrade : PyStr
  cols : List ParsedColumn
deriving DecidableEq, Repr

/-- One iteration of the column loop in `parse_balance_data` (source lines
217-243): update the carried product, skip reserved products, update the
carried grade, and emit a column iff product, grade and metric are all
non-empty. -/
def parseStep (rowP rowG rowD rowM : List PyStr) (st : ParseState) (i : ℕ) :
    ParseState :=
  let p := cellAt rowP i
  let curP := if p = [] then st.curProduct else p
  if curP ∈ reservedProducts then
    ⟨curP, st.curGrade, st.cols⟩
  else
    let g := cellAt rowG i
    let curG := if g = [] then st.curGrade else g
    let metric := cellAt rowM i
    let value := dataCellAt rowD i
    if curP ≠ [] ∧ curG ≠ [] ∧ metric ≠ [] then
      ⟨curP, curG, st.cols ++ [⟨i, curP, curG, metric, value⟩]⟩
    else
      ⟨curP, curG, st.cols⟩

/-- The column bound actually used by the source (line 215):
`max(len(row_product), len(row_grade), len(row_data), len(row_metric))` —
the TOTAL row (row 1) is not among the four rows measured. -/
def balanceMaxCols (data : Grid) : ℕ :=
  max (max (data.getD 0 []).length (data.getD 2 []).length)
    (max (data.getD 3 []).length (data.getD 4 []).length)

/-- Modelled from the spec: the column bound as the spec words it,
`max(len(row) for row in the 5 header rows)` — including row 1. -/
def specFiveRowMaxCols (data : Grid) : ℕ :=
  max (data.getD 0 []).length (max (data.getD 1 []).length
    (max (data.getD 2 []).length
      (max (data.getD 3 []).length (data.getD 4 []).length)))

/-- Embedding of `parse_balance_data` with an explicit column bound for the scan. -/
def parseWithBound (bound : ℕ) (data : Grid) : List ParsedColumn :=
  if data.length < 5 then []
  else
    ((List.range bound).foldl
      (parseStep (data.getD 0 []) (data.getD 2 []) (data.getD 3 [])
        (data.getD 4 []))
      ⟨[], [], []⟩).cols

/-- Embedding of `parse_balance_data` (source lines 181-245): parse the 5-row header
structure into a flat list of columns.  Returns `[]` for grids with fewer
than 5 rows. -/
def parse_balance_data (data : Grid) : List ParsedColumn :=
  parseWithBound (balanceMaxCols data) data

/-- Python `abs` on a number. -/
def pyAbs (q : ℚ) : ℚ := if q < 0 then -q else q

/-- Python `int()` truncation toward zero of a float. -/
def pyInt (q : ℚ) : ℤ := if q < 0 then ⌈q⌉ else ⌊q⌋

/-- The digits of a numeral, read as a natural number. -/
def digitsVal (l : List Char) : ℕ :=
  l.foldl (fun n c => 10 * n + (c.toNat - 48)) 0

/-- Python `float()` on the plain decimal numerals that occur in the
balance sheet: optional sign, integer digits, optional fraction digits
(exponents, infinities and NaN never occur in these cells and are not
modelled); `none` models the `ValueError` raised for unparseable text. -/
def pyFloat (s : PyStr) : Option ℚ :=
  let t := pyStrip s
  let signed : ℚ × PyStr :=
    match t with
    | '-' :: r => (-1, r)
    | '+' :: r => (1, r)
    | _ => (1, t)
  let intPart := signed.2.takeWhile Char.isDigit
  match signed.2.drop intPart.length with
  | [] => if intPart = [] then none else some (signed.1 * (digitsVal intPart : ℚ))
  | '.' :: frac =>
    if frac.all Char.isDigit ∧ (intPart ≠ [] ∨ frac ≠ []) then
      some (signed.1 *
        ((digitsVal intPart : ℚ) + (digitsVal frac : ℚ) / ((10 : ℚ) ^ frac.length)))
    else none
  | _ => none

/-- The numeric contribution of one cell in the summing loops:
`float(value) if value else 0`, and an unparseable value is skipped
by the surrounding `except (ValueError, TypeError): continue`
(equivalently, it contributes 0). -/
def pyCellNum (value : PyStr) : ℚ :=
  if value = [] then 0 else (pyFloat value).getD 0

/-- Embedding of `calculate_total_pieces` (source lines 846-874): sum of all
whole-chicken `Qty` columns, converted by `int()`. -/
def calculate_total_pieces (stock_data : Grid) : ℤ :=
  pyInt ((parse_balance_data stock_data).foldl
    (fun total c =>
      if pyContains "WHOLE CHICKEN".toList c.product = true ∧
          c.metric = "Qty".toList then
        total + pyCellNum c.value
      else total)
    0)

/-- The sum of all `GIZZARD` `Packs` columns in
`calculate_current_differences` (source lines 894-905). -/
def gizzardPacksSum (stock_data : Grid) : ℚ :=
  (parse_balance_data stock_data).foldl
    (fun total c =>
      if c.product = "GIZZARD".toList ∧ c.metric = "Packs".toList then
        total + pyCellNum c.value
      else total)
    0

/-- The sum of all `GIZZARD` `Weight(kg)` columns in
`calculate_current_differences` (source lines 907-913). -/
def gizzardWeightSum (stock_data : Grid) : ℚ :=
  (parse_balance_data stock_data).foldl
    (fun total c =>
      if c.product = "GIZZARD".toList ∧ c.metric = "Weight(kg)".toList then
        total + pyCellNum c.value
      else total)
    0

/-- Embedding of `calculate_current_differences` (source lines 876-926): derive the
whole-chicken, gizzard-packs and gizzard-weight difference scalars.  Only
the two gizzard differences are guarded by a positive physical count; the
whole-chicken difference is computed whenever the inventory balance is
available. -/
def calculate_current_differences (stock_data : Grid)
    (inventory_balance gizzard_inventory_packs gizzard_inventory_weight :
      Option ℚ) :
    Option ℤ × Option ℚ × Option ℚ :=
  let total_pieces := calculate_total_pieces stock_data
  let whole_chicken_diff : Option ℤ :=
    match inventory_balance with
    | some b => some (pyInt ((total_pieces : ℚ) - b))
    | none => none
  let current_gizzard_packs := gizzardPacksSum stock_data
  let current_gizzard_weight := gizzardWeightSum stock_data
  let gizzard_packs_diff : Option ℚ :=
    match gizzard_inventory_packs with
    | some g =>
      if 0 < current_gizzard_packs then some (current_gizzard_packs - g)
      else none
    | none => none
  let gizzard_weight_diff : Option ℚ :=
    match gizzard_inventory_weight with
    | some g =>
      if 0 < current_gizzard_weight then some (current_gizzard_weight - g)
      else none
    | none => none
  (whole_chicken_diff, gizzard_packs_diff, gizzard_weight_diff)

/-- A change of a derived scalar metric, as appended by the difference
detectors: `(change_type, old_value, new_value)`. -/
structure ScalarChange where
  label : String
  old_value : ℚ
  new_value : ℚ
deriving DecidableEq, Repr

/-- The label of a whole-chicken difference change. -/
def chickenLabel : String := "Whole Chicken Balance Difference"

/-- The label of a gizzard packs difference change. -/
def gizzardPacksLabel : String := "Gizzard Packs Balance Difference"

/-- The label of a gizzard weight difference change. -/
def gizzardWeightLabel : String := "Gizzard Weight Balance Difference"

/-- Embedding of `detect_chicken_difference_changes` (source lines 611-633): no change
when the previous value is missing (early return) or the current value is
missing; otherwise a change exactly when the two values differ — an exact
`!=` comparison, with no tolerance. -/
def detect_chicken_difference_changes
    (previous_chicken_diff current_chicken_diff : Option ℚ) :
    List ScalarChange :=
  match previous_chicken_diff, current_chicken_diff with
  | none, _ => []
  | some _, none => []
  | some p, some c => if p = c then [] else [⟨chickenLabel, p, c⟩]

/-- One of the two analogous blocks of `detect_gizzard_difference_changes`
(source lines 647-651 and 654-658): a change exactly when both sides are
present and `abs(previous - current) >= 0.01`. -/
def gizzardMetricCheck (label : String) (previous current : Option ℚ) :
    List ScalarChange :=
  match previous, current with
  | some a, some b =>
    if (1 : ℚ)/100 ≤ pyAbs (a - b) then [⟨label, a, b⟩] else []
  | _, _ => []

/-- Embedding of `detect_gizzard_difference_changes` (source lines 635-667): one change
per gizzard metric whose previous and current values are both present and
differ by at least the 0.01 tolerance. -/
def detect_gizzard_difference_changes
    (previous_gizzard_packs_diff current_gizzard_packs_diff
      previous_gizzard_weight_diff current_gizzard_weight_diff : Option ℚ) :
    List ScalarChange :=
  gizzardMetricCheck gizzardPacksLabel
      previous_gizzard_packs_diff current_gizzard_packs_diff ++
    gizzardMetricCheck gizzardWeightLabel
      previous_gizzard_weight_diff current_gizzard_weight_diff

/-- The serialized content of one encrypted state file: either a nullable
scalar (a `*_diff_state` file) or a grid (the balance state file). -/
inductive StateData
  | scalar (v : Option ℚ)
  | grid (g : Grid)
deriving DecidableEq, Repr

/-- An encrypted blob: Fernet authenticated encryption of the pickled
payload under an integer-modelled key.  Decryption with the wrong key
fails, decryption with the right key restores the payload exactly
(the round-trip guarantee of Fernet plus pickle). -/
structure EncBlob where
  encKey : ℕ
  payload : StateData
deriving DecidableEq, Repr

/-- Embedding of `encrypt_state_data` (source lines 100-110). -/
def encrypt_state_data (key : ℕ) (data : StateData) : EncBlob :=
  ⟨key, data⟩

/-- Embedding of `decrypt_state_data` (source lines 112-122): `none` models the raised
decryption error. -/
def decrypt_state_data (key : ℕ) (blob : EncBlob) : Option StateData :=
  if blob.encKey = key then some blob.payload else none

/-- Embedding of `save_current_state` (source lines 506-530) for the balance state file:
grids with fewer than 5 rows (including the empty, falsy grid) are rejected
and the file is left unchanged. -/
def save_current_state_grid (key : ℕ) (state : Grid)
    (file : Option EncBlob) : Option EncBlob :=
  if state.length < 5 then file
  else some (encrypt_state_data key (.grid state))

/-- Embedding of `save_current_state` (source lines 506-530) for a `*_diff_state` file:
a number or `None` is always a valid value and is always written. -/
def save_current_state_diff (key : ℕ) (state : Option ℚ)
    (file : Option EncBlob) : Option EncBlob :=
  some (encrypt_state_data key (.scalar state))

/-- Embedding of `load_previous_state` (source lines 473-504) for the balance state
file: missing file, failed decryption, a payload that is not a grid, or a
grid with fewer than 5 rows are all treated as "no previous state". -/
def load_previous_state_grid (key : ℕ) (file : Option EncBlob) :
    Option Grid :=
  match file with
  | none => none
  | some blob =>
    match decrypt_state_data key blob with
    | some (.grid g) => if g.length < 5 then none else some g
    | _ => none

/-- Embedding of `load_previous_state` (source lines 473-504) for a `*_diff_state` file:
missing file, failed decryption, or a payload that is neither a number nor
`None` are all treated as "no previous state". -/
def load_previous_state_diff (key : ℕ) (file : Option EncBlob) : Option ℚ :=
  match file with
  | none => none
  | some blob =>
    match decrypt_state_data key blob with
    | some (.scalar v) => v
    | _ => none

/-- A structural change record produced by `detect_balance_changes`. -/
structure ChangeRecord where
  product : PyStr
  grade : PyStr
  metric : PyStr
  old_value : PyStr
  new_value : PyStr
deriving DecidableEq, Repr

/-- The composite dictionary key
`f"{col['product']}|{col['grade']}|{col['metric']}"`. -/
def keyOf (c : ParsedColumn) : PyStr :=
  c.product ++ '|' :: (c.grade ++ '|' :: c.metric)

/-- Python dict assignment `d[k] = v` on an insertion-ordered association
list: overwrite in place if the key exists, else append. -/
def dictUpsert (d : List (PyStr × PyStr)) (k v : PyStr) :
    List (PyStr × PyStr) :=
  if d.any (fun p => p.1 == k) then
    d.map (fun p => if p.1 == k then (p.1, v) else p)
  else d ++ [(k, v)]

/-- The `prev_dict` / `curr_dict` construction (source lines 566-574). -/
def buildDict (cols : List ParsedColumn) : List (PyStr × PyStr) :=
  cols.foldl (fun d c => dictUpsert d (keyOf c) c.value) []

/-- Python `d.get(k, dflt)`. -/
def dictGetD (d : List (PyStr × PyStr)) (k dflt : PyStr) : PyStr :=
  match d.find? (fun p => p.1 == k) with
  | some p => p.2
  | none => dflt

/-- One iteration of the change loop in `detect_balance_changes` (source
lines 578-597): compare stripped values; on mismatch unpack the composite
key with `key.split('|')` into exactly three components (a key with more
than two separators raises `ValueError`, surfaced as the `APIError` of the
enclosing handler, modelled by `Except.error`), skip whole-chicken
`Weight(kg)` changes, and append a change record otherwise. -/
def changesStep (prev_dict : List (PyStr × PyStr))
    (acc : Except Unit (List ChangeRecord)) (kv : PyStr × PyStr) :
    Except Unit (List ChangeRecord) :=
  match acc with
  | .error e => .error e
  | .ok changes =>
    let curr_val := pyStrip kv.2
    let prev_val := pyStrip (dictGetD prev_dict kv.1 [])
    if prev_val = curr_val then .ok changes
    else
      match List.splitOn '|' kv.1 with
      | [product, grade, metric] =>
        if pyContains "WHOLE CHICKEN".toList product = true ∧
            metric = "Weight(kg)".toList then
          .ok changes
        else .ok (changes ++ [⟨product, grade, metric, prev_val, curr_val⟩])
      | _ => .error ()

/-- Embedding of `detect_balance_changes` (source lines 532-607): falsy or missing
previous data yields no changes; a too-small grid or a row-0 column-count
drift beyond 10 resets the balance state file (subject to the save
validation) and yields no changes; otherwise both grids are parsed,
indexed by the composite key, and compared value-by-value in the insertion
order of the current dictionary. -/
def detect_balance_changes (previous_data : Option Grid)
    (current_data : Grid) (balance_state_file : Option EncBlob) (key : ℕ) :
    Except Unit (List ChangeRecord × Option EncBlob) :=
  match previous_data with
  | none => .ok ([], balance_state_file)
  | some p =>
    if p = [] then .ok ([], balance_state_file)
    else if p.length < 5 ∨ current_data.length < 5 then
      .ok ([], save_current_state_grid key current_data balance_state_file)
    else if 10 <
        (((p.headD []).length : ℤ) -
          ((current_data.headD []).length : ℤ)).natAbs then
      .ok ([], save_current_state_grid key current_data balance_state_file)
    else
      match (buildDict (parse_balance_data current_data)).foldl
          (changesStep (buildDict (parse_balance_data p))) (.ok []) with
      | .ok changes => .ok (changes, balance_state_file)
      | .error e => .error e

/-- The outcome of one webhook POST attempt, supplied by the environment:
an HTTP status code or a network/timeout error. -/
inductive AttemptOutcome
  | status (code : ℕ)
  | netError
deriving DecidableEq, Repr

/-- The exceptions travelling through the delivery stack:
`requests.exceptions.HTTPError` (raised by `_send_webhook` for a non-2xx
response), a requests connection/timeout error, `tenacity.RetryError`
(raised when the 5-attempt budget is exhausted, since `reraise` is left
false), and `pybreaker.CircuitBreakerError`. -/
inductive WebhookExn
  | httpError (code : ℕ)
  | connectionError
  | retryError
  | circuitBreakerError
deriving DecidableEq, Repr

/-- The exception raised by one attempt of `_send_webhook` (source lines
1679-1693): `response.ok` is `status < 400`; a non-ok response raises
`HTTPError`, a network failure raises a requests error. -/
def attemptExn : AttemptOutcome → Option WebhookExn
  | .status code => if code < 400 then none else some (.httpError code)
  | .netError => some .connectionError

/-- Embedding of `should_retry_webhook` (source lines 329-342): 4xx is terminal, 5xx is
retryable, network errors are retryable. -/
def should_retry_webhook : WebhookExn → Bool
  | .httpError code =>
    if 400 ≤ code ∧ code < 500 then false
    else decide (500 ≤ code ∧ code < 600)
  | .connectionError => true
  | .retryError => false
  | .circuitBreakerError => false

/-- The tenacity retry loop of `_send_webhook` with
`stop_after_attempt(5)` and `retry_if_exception(should_retry_webhook)`:
`tr i` is the outcome of attempt `i`; returns the final result (success or
the escaping exception) together with the number of attempts performed.  A
non-retryable exception escapes unchanged; an exhausted budget escapes as
`RetryError` (tenacity wraps the last attempt because `reraise` defaults
to false). -/
def retryAux (tr : ℕ → AttemptOutcome) (i : ℕ) :
    ℕ → Option WebhookExn × ℕ
  | 0 => (some .retryError, 0)
  | fuel + 1 =>
    match attemptExn (tr i) with
    | none => (none, 1)
    | some e =>
      if should_retry_webhook e then
        if fuel = 0 then (some .retryError, 1)
        else
          ((retryAux tr (i + 1) fuel).1, (retryAux tr (i + 1) fuel).2 + 1)
      else (some e, 1)

/-- The decorated `_send_webhook` retry stack: at most 5 attempts. -/
def runRetry (tr : ℕ → AttemptOutcome) : Option WebhookExn × ℕ :=
  retryAux tr 0 5

/-- The pybreaker circuit state: closed with a consecutive-failure counter,
or opened at a time. -/
inductive BreakerState
  | closed (counter : ℕ)
  | opened (openedAt : ℕ)
deriving DecidableEq, Repr

/-- Whether the breaker is open. -/
def BreakerState.isOpen : BreakerState → Bool
  | .closed _ => false
  | .opened _ => true

/-- The `exclude=[requests.exceptions.HTTPError]` test of
`webhook_circuit_breaker` (source lines 86-90): every `HTTPError` is
excluded from the failure count (pybreaker handles an excluded exception
as a success, resetting the counter). -/
def breakerExcluded : WebhookExn → Bool
  | .httpError _ => true
  | _ => false

/-- Constant `fail_max=5` of `webhook_circuit_breaker`. -/
def fail_max : ℕ := 5

/-- Constant `reset_timeout=60` of `webhook_circuit_breaker`. -/
def reset_timeout : ℕ := 60

/-- One guarded call through `webhook_circuit_breaker` at time `now`
(pybreaker semantics): when open and inside the cooldown, reject
immediately with `CircuitBreakerError` and zero attempts; when open past
the cooldown, make a half-open trial; when closed, run the retrying call,
reset the counter on success or on an excluded exception, and otherwise
count the failure, opening the breaker (and raising `CircuitBreakerError`
in place of the original exception) when the counter reaches `fail_max`. -/
def breakerCall (st : BreakerState) (now : ℕ) (tr : ℕ → AttemptOutcome) :
    Option WebhookExn × ℕ × BreakerState :=
  match st with
  | .closed n =>
    match runRetry tr with
    | (none, k) => (none, k, .closed 0)
    | (some e, k) =>
      if breakerExcluded e = true then (some e, k, .closed 0)
      else if fail_max ≤ n + 1 then (some .circuitBreakerError, k, .opened now)
      else (some e, k, .closed (n + 1))
  | .opened t0 =>
    if now < t0 + reset_timeout then
      (some .circuitBreakerError, 0, .opened t0)
    else
      match runRetry tr with
      | (none, k) => (none, k, .closed 0)
      | (some e, k) =>
        if breakerExcluded e = true then (some e, k, .closed 0)
        else (some .circuitBreakerError, k, .opened now)

/-- A dead-letter queue entry (`save_failed_webhook`, source lines
344-354): note the hard-coded `attempts: 5`. -/
structure FailedWebhook where
  payload : String
  webhook_url : String
  error : WebhookExn
  timestamp : ℕ
  attempts : ℕ
  status : String
deriving DecidableEq, Repr

/-- Embedding of `save_failed_webhook` (source lines 344-382): append one entry, with
`attempts` hard-coded to 5 whatever the number of attempts made. -/
def save_failed_webhook (payload : String) (error_msg : WebhookExn)
    (webhook_url : String) (now : ℕ) (queue : List FailedWebhook) :
    List FailedWebhook :=
  queue ++ [⟨payload, webhook_url, error_msg, now, 5, "failed"⟩]

/-- The observable outcome of `send_combined_alert`: the returned boolean,
the breaker state after the call, the dead-letter queue after the call,
and the number of webhook POST attempts performed. -/
structure AlertResult where
  delivered : Bool
  breaker : BreakerState
  dlq : List FailedWebhook
  attemptsMade : ℕ
deriving DecidableEq, Repr

/-- Embedding of `send_combined_alert` (source lines 1654-1719): nothing to do without
changes; otherwise call the breaker-guarded retrying `_send_webhook`.  On
success clear the whole dead-letter queue; on any exception (including
`CircuitBreakerError`, caught by the inner `except Exception`) append one
dead-letter entry and return `False`. -/
def send_combined_alert (hasChanges : Bool) (payload webhook_url : String)
    (brk : BreakerState) (now : ℕ) (tr : ℕ → AttemptOutcome)
    (dlq : List FailedWebhook) : AlertResult :=
  if hasChanges = false then ⟨true, brk, dlq, 0⟩
  else
    match breakerCall brk now tr with
    | (none, k, brk2) => ⟨true, brk2, [], k⟩
    | (some e, k, brk2) =>
      ⟨false, brk2, save_failed_webhook payload e webhook_url now dlq, k⟩

/-- An environment in which every POST attempt returns HTTP 503. -/
def trace503 : ℕ → AttemptOutcome := fun _ => .status 503

/-- The four encrypted state files of one run. -/
structure Stores where
  balance : Option EncBlob
  chickenDiff : Option EncBlob
  gizzardPacksDiff : Option EncBlob
  gizzardWeightDiff : Option EncBlob
deriving DecidableEq, Repr

/-- The delivery-and-persist tail of `main` (source lines 1789-1805): send
the combined alert when any change list is non-empty, ignore its boolean
result except for logging, and then unconditionally save all four state
files with the freshly computed current values. -/
def mainDeliverAndPersist (key : ℕ) (balance_data : Grid)
    (inventory_balance gizzard_inventory_packs gizzard_inventory_weight :
      Option ℚ)
    (balance_changes : List ChangeRecord)
    (chicken_difference_changes gizzard_difference_changes :
      List ScalarChange)
    (payload webhook_url : String) (brk : BreakerState) (now : ℕ)
    (tr : ℕ → AttemptOutcome) (dlq : List FailedWebhook) (s : Stores) :
    Stores × AlertResult :=
  let hasChanges := ¬(balance_changes = [] ∧
    chicken_difference_changes = [] ∧ gizzard_difference_changes = [])
  let res :=
    if hasChanges then
      send_combined_alert true payload webhook_url brk now tr dlq
    else ⟨true, brk, dlq, 0⟩
  let diffs := calculate_current_differences balance_data inventory_balance
    gizzard_inventory_packs gizzard_inventory_weight
  (⟨save_current_state_grid key balance_data s.balance,
    save_current_state_diff key (diffs.1.map fun z => (z : ℚ)) s.chickenDiff,
    save_current_state_diff key diffs.2.1 s.gizzardPacksDiff,
    save_current_state_diff key diffs.2.2 s.gizzardWeightDiff⟩, res)

/-- A concrete 5-row grid used by witnesses. -/
def witnessGrid : Grid :=
  [[ "GIZZARD".toList], ["TOTAL".toList], ["Grade A".toList],
    ["5".toList], ["Packs".toList]]

/-- A 5-row grid whose row 1 (the TOTAL row) is strictly longer than rows
0, 2, 3 and 4. -/
def c5Grid : Grid :=
  [[ "P".toList], ["T".toList, "T".toList, "T".toList], ["G".toList],
    ["5".toList], ["Q".toList]]

/-- A 5-row grid with no whole-chicken column, so the physical
whole-chicken count sums to zero. -/
def c3Grid : Grid :=
  [[ "GIZZARD".toList], ["TOTAL".toList], ["Grade A".toList],
    ["5".toList], ["Packs".toList]]

/-- A 5-row previous grid whose row 0 has 12 columns. -/
def c6Prev : Grid :=
  [(List.replicate 12 "A".toList), [], [], [], []]

/-- A 1-row current grid (row 0 has 1 column): 12 - 1 exceeds the drift
threshold, but the grid fails the 5-row save validation. -/
def c6Curr : Grid := [["x".toList]]

/-- A previous grid containing a column whose product contains the
separator character (key `A|B|G|M`) next to an ordinary column
(key `C|H|N`). -/
def c10Prev : Grid :=
  [[ "A|B".toList, "C".toList], ["".toList, "".toList],
    ["G".toList, "H".toList], ["1".toList, "2".toList],
    ["M".toList, "N".toList]]

/-- A current grid containing only the ordinary column (key `C|H|N`) with
a changed value. -/
def c10Curr : Grid :=
  [[ "C".toList], [], ["H".toList], ["9".toList], ["N".toList]]

/-- A previous grid with a `|`-containing product; the same column exists
in `c10WitCurr` with a different value. -/
def c10WitPrev : Grid :=
  [[ "A|B".toList], [], ["G".toList], ["5".toList], ["M".toList]]

/-- The current counterpart of `c10WitPrev`, value changed from 5 to 7. -/
def c10WitCurr : Grid :=
  [[ "A|B".toList], [], ["G".toList], ["7".toList], ["M".toList]]

instance {ε α : Type} [DecidableEq ε] [DecidableEq α] :
    DecidableEq (Except ε α) := fun x y =>
  match x, y with
  | .ok a, .ok b =>
    if h : a = b then .isTrue (by rw [h]) else .isFalse (by simp [h])
  | .error a, .error b =>
    if h : a = b then .isTrue (by rw [h]) else .isFalse (by simp [h])
  | .ok _, .error _ => .isFalse (fun hc => Except.noConfusion hc)
  | .error _, .ok _ => .isFalse (fun hc => Except.noConfusion hc)

/-- A current-dictionary entry on which the change loop raises: its
stripped value differs from the previous one (missing reading as empty, so
the mismatch branch is taken) and its key does not split into exactly
three `|`-separated components (so the tuple unpack raises `ValueError`). -/
def badKV (prev_dict : List (PyStr × PyStr)) (kv : PyStr × PyStr) : Prop :=
  pyStrip (dictGetD prev_dict kv.1 []) ≠ pyStrip kv.2 ∧
    (List.splitOn '|' kv.1).length ≠ 3

instance (prev_dict : List (PyStr × PyStr)) (kv : PyStr × PyStr) :
    Decidable (badKV prev_dict kv) := by
  unfold badKV
  infer_instance

/-! ## Theorems -/

lemma parseStep_cols (rowP rowG rowD rowM : List PyStr) (st : ParseState)
    (i : ℕ) :
    (parseStep rowP rowG rowD rowM st i).cols = st.cols ∨
      ∃ rec : ParsedColumn,
        (rec.product ≠ [] ∧ rec.grade ≠ [] ∧ rec.metric ≠ [] ∧
          rec.product ∉ reservedProducts) ∧
        (parseStep rowP rowG rowD rowM st i).cols = st.cols ++ [rec] := by
  unfold parseStep
  simp only
  split_ifs <;>
    first
    | (left; rfl)
    | (right; refine ⟨_, ?_, rfl⟩; tauto)

lemma foldl_parseStep_wf (rowP rowG rowD rowM : List PyStr) (l : List ℕ)
    (st : ParseState)
    (h : ∀ r ∈ st.cols,
      r.product ≠ [] ∧ r.grade ≠ [] ∧ r.metric ≠ [] ∧
        r.product ∉ reservedProducts) :
    ∀ r ∈ (l.foldl (parseStep rowP rowG rowD rowM) st).cols,
      r.product ≠ [] ∧ r.grade ≠ [] ∧ r.metric ≠ [] ∧
        r.product ∉ reservedProducts := by
  induction l generalizing st with
  | nil => exact h
  | cons a t ih =>
    intro r hr
    refine ih _ ?_ r hr
    intro q hq
    rcases parseStep_cols rowP rowG rowD rowM st a with hc | ⟨rec, hwf, hc⟩
    · rw [hc] at hq; exact h q hq
    · rw [hc] at hq
      rcases List.mem_append.mp hq with hq | hq
      · exact h q hq
      · rw [List.mem_singleton.mp hq]; exact hwf

/-- C7: for every grid with at least 5 rows, every record emitted by
`parse_balance_data` has a non-empty product, non-empty grade and non-empty
metric after carry-forward resolution, and no record is emitted for a column
whose carried-forward product is one of the reserved names DATE or NOTES. -/
theorem c7_parse_records_wellformed (data : Grid) (h : 5 ≤ data.length) :
    ∀ r ∈ parse_balance_data data,
      r.product ≠ [] ∧ r.grade ≠ [] ∧ r.metric ≠ [] ∧
        r.product ∉ reservedProducts := by
  intro r hr
  have hmem : r ∈ parseWithBound (balanceMaxCols data) data := hr
  unfold parseWithBound at hmem
  rw [if_neg (by omega)] at hmem
  exact foldl_parseStep_wf _ _ _ _ _ _ (by intro q hq; cases hq) r hmem

/-- Witness for `c7_parse_records_wellformed` at a concrete 5-row grid. -/
theorem c7_parse_records_wellformed_witness :
    (⟨0, "GIZZARD".toList, "Grade A".toList, "Packs".toList, "5".toList⟩ :
      ParsedColumn).product ≠ [] :=
  (c7_parse_records_wellformed witnessGrid (by decide)
    ⟨0, "GIZZARD".toList, "Grade A".toList, "Packs".toList, "5".toList⟩
    (by decide)).1

lemma cellAt_eq_nil_of_le (row : List PyStr) (i : ℕ) (h : row.length ≤ i) :
    cellAt row i = [] := by
  unfold cellAt
  rw [List.getD_eq_default _ _ h]
  rfl

lemma parseStep_id (rowP rowG rowD rowM : List PyStr) (st : ParseState)
    (i : ℕ) (hP : rowP.length ≤ i) (hG : rowG.length ≤ i)
    (hM : rowM.length ≤ i) :
    parseStep rowP rowG rowD rowM st i = st := by
  unfold parseStep
  simp only [cellAt_eq_nil_of_le _ _ hP, cellAt_eq_nil_of_le _ _ hG,
    cellAt_eq_nil_of_le _ _ hM, if_pos]
  split
  · rfl
  · rw [if_neg (by simp)]

lemma parseWithBound_extend (data : Grid) (b : ℕ)
    (hb : balanceMaxCols data ≤ b) :
    parseWithBound b data = parse_balance_data data := by
  induction b with
  | zero =>
    unfold parse_balance_data
    rw [Nat.le_zero.mp hb]
  | succ n ih =>
    by_cases hn : balanceMaxCols data ≤ n
    · rw [← ih hn]
      unfold parseWithBound
      by_cases h5 : data.length < 5
      · rw [if_pos h5, if_pos h5]
      · rw [if_neg h5, if_neg h5]
        rw [List.range_succ, List.foldl_append, List.foldl_cons,
          List.foldl_nil]
        rw [parseStep_id]
        · exact le_trans (le_trans (le_max_left _ _) (le_max_left _ _)) hn
        · exact le_trans (le_trans (le_max_right _ _) (le_max_left _ _)) hn
        · exact le_trans (le_trans (le_max_right _ _) (le_max_right _ _)) hn
    · unfold parse_balance_data
      rw [show balanceMaxCols data = n + 1 by omega]

/-- C5 counterexample: `parse_balance_data` scans exactly the column
indices below `balanceMaxCols` — the maximum length of rows 0, 2, 3 and 4
— and on a grid whose row 1 (the reserved TOTAL row) is the longest row
this bound differs from the claimed bound over all five header rows. -/
theorem c5_counterexample :
    parse_balance_data c5Grid = parseWithBound (balanceMaxCols c5Grid) c5Grid ∧
      balanceMaxCols c5Grid = 1 ∧ specFiveRowMaxCols c5Grid = 3 ∧
      balanceMaxCols c5Grid ≠ specFiveRowMaxCols c5Grid :=
  ⟨rfl, by decide, by decide, by decide⟩

/-- C5 amended: for every grid with at least 5 rows, `parse_balance_data`
scans the column indices below the maximum length of rows 0, 2, 3 and 4
(row 1 is excluded from the bound), with out-of-range cells read as empty;
scanning up to the spec's five-row bound nevertheless emits exactly the
same records, because every extra column has an empty metric. -/
theorem c5_amended (data : Grid) (h : 5 ≤ data.length) :
    parse_balance_data data = parseWithBound (balanceMaxCols data) data ∧
      parseWithBound (specFiveRowMaxCols data) data =
        parse_balance_data data := by
  refine ⟨rfl, parseWithBound_extend data _ ?_⟩
  unfold balanceMaxCols specFiveRowMaxCols
  refine max_le (max_le ?_ ?_) (max_le ?_ ?_)
  · exact le_max_left _ _
  · exact le_trans (le_max_left _ _)
      (le_trans (le_max_right _ _) (le_max_right _ _))
  · exact le_trans (le_trans (le_max_left _ _) (le_max_right _ _))
      (le_trans (le_max_right _ _) (le_max_right _ _))
  · exact le_trans (le_trans (le_max_right _ _) (le_max_right _ _))
      (le_trans (le_max_right _ _) (le_max_right _ _))

/-- Witness for `c5_amended` at a concrete 5-row grid. -/
theorem c5_amended_witness :
    parseWithBound (specFiveRowMaxCols c5Grid) c5Grid =
      parse_balance_data c5Grid :=
  (c5_amended c5Grid (by decide)).2

lemma detect_chicken_some_some (p c : ℚ) :
    detect_chicken_difference_changes (some p) (some c) =
      if p = c then [] else [⟨chickenLabel, p, c⟩] := rfl

lemma gizzardMetricCheck_some_some (l : String) (a b : ℚ) :
    gizzardMetricCheck l (some a) (some b) =
      if (1 : ℚ)/100 ≤ pyAbs (a - b) then [⟨l, a, b⟩] else [] := rfl

/-- C2 counterexample: the whole-chicken difference detector compares with
exact `!=` rather than the 0.01 tolerance — at previous 10 and current
10.004 it reports a change although the distance is below 0.01. -/
theorem c2_counterexample :
    detect_chicken_difference_changes (some 10) (some (10 + 4/1000)) =
      [⟨chickenLabel, 10, 10 + 4/1000⟩] ∧
      pyAbs ((10 + 4/1000 : ℚ) - 10) < 1/100 := by
  constructor
  · rw [detect_chicken_some_some, if_neg (by norm_num)]
  · unfold pyAbs
    rw [if_neg (by norm_num)]
    norm_num

/-- C2 amended: the null-propagation rule holds for every label; the 0.01
tolerance holds for the two gizzard labels (each reporting exactly one
change when both sides are present and at least 0.01 apart); the
whole-chicken label instead reports exactly one change whenever both sides
are present and exactly unequal. -/
theorem c2_amended :
    (∀ current : Option ℚ,
      detect_chicken_difference_changes none current = []) ∧
    (∀ p : ℚ, detect_chicken_difference_changes (some p) none = []) ∧
    (∀ p c : ℚ, p ≠ c →
      detect_chicken_difference_changes (some p) (some c) =
        [⟨chickenLabel, p, c⟩]) ∧
    (∀ p : ℚ, detect_chicken_difference_changes (some p) (some p) = []) ∧
    (∀ pp cp pw cw : Option ℚ,
      detect_gizzard_difference_changes pp cp pw cw =
        gizzardMetricCheck gizzardPacksLabel pp cp ++
          gizzardMetricCheck gizzardWeightLabel pw cw) ∧
    (∀ (l : String) (c : Option ℚ), gizzardMetricCheck l none c = []) ∧
    (∀ (l : String) (p : Option ℚ), gizzardMetricCheck l p none = []) ∧
    (∀ (l : String) (a b : ℚ), pyAbs (a - b) < 1/100 →
      gizzardMetricCheck l (some a) (some b) = []) ∧
    (∀ (l : String) (a b : ℚ), 1/100 ≤ pyAbs (a - b) →
      gizzardMetricCheck l (some a) (some b) = [⟨l, a, b⟩]) := by
  refine ⟨?_, ?_, ?_, ?_, ?_, ?_, ?_, ?_, ?_⟩
  · intro current; rfl
  · intro p; rfl
  · intro p c h
    rw [detect_chicken_some_some, if_neg h]
  · intro p
    rw [detect_chicken_some_some, if_pos rfl]
  · intro pp cp pw cw; rfl
  · intro l c; cases c <;> rfl
  · intro l p; cases p <;> rfl
  · intro l a b h
    rw [gizzardMetricCheck_some_some, if_neg (not_le.mpr h)]
  · intro l a b h
    rw [gizzardMetricCheck_some_some, if_pos h]

/-- Witness for `c2_amended`: the gizzard tolerance at 10 versus 10.004. -/
theorem c2_amended_witness :
    gizzardMetricCheck gizzardPacksLabel (some 10) (some (10 + 4/1000)) =
      [] := by
  refine c2_amended.2.2.2.2.2.2.2.1 gizzardPacksLabel 10 (10 + 4/1000) ?_
  unfold pyAbs
  rw [if_pos (by norm_num)]
  norm_num

lemma total_pieces_c3Grid : calculate_total_pieces c3Grid = 0 := by
  have hparse : parse_balance_data c3Grid =
      [⟨0, "GIZZARD".toList, "Grade A".toList, "Packs".toList,
        "5".toList⟩] := by decide
  unfold calculate_total_pieces
  rw [hparse]
  simp only [List.foldl_cons, List.foldl_nil]
  rw [if_neg (by decide)]
  unfold pyInt
  rw [if_neg (by norm_num)]
  norm_num

lemma calculate_current_differences_fst (stock : Grid) (b : ℚ)
    (gp gw : Option ℚ) :
    (calculate_current_differences stock (some b) gp gw).1 =
      some (pyInt ((calculate_total_pieces stock : ℚ) - b)) := rfl

lemma calculate_current_differences_packs (stock : Grid)
    (inv gw : Option ℚ) (g : ℚ) :
    (calculate_current_differences stock inv (some g) gw).2.1 =
      (if 0 < gizzardPacksSum stock then some (gizzardPacksSum stock - g)
        else none) := rfl

lemma calculate_current_differences_weight (stock : Grid)
    (inv gp : Option ℚ) (g : ℚ) :
    (calculate_current_differences stock inv gp (some g)).2.2 =
      (if 0 < gizzardWeightSum stock then some (gizzardWeightSum stock - g)
        else none) := rfl

/-- C3 counterexample: on a grid whose whole-chicken physical count is
zero, the whole-chicken difference is still computed — with an external
balance of 100 it is `-100`, not null. -/
theorem c3_counterexample :
    calculate_total_pieces c3Grid = 0 ∧
      (calculate_current_differences c3Grid (some 100) none none).1 =
        some (-100) := by
  refine ⟨total_pieces_c3Grid, ?_⟩
  rw [calculate_current_differences_fst, total_pieces_c3Grid]
  have hq : ((0 : ℤ) : ℚ) - 100 = ((-100 : ℤ) : ℚ) := by norm_num
  rw [hq]
  unfold pyInt
  rw [if_pos (by norm_num), Int.ceil_intCast]

/-- C3 amended: a zero physical count suppresses the computation of the
gizzard packs and gizzard weight differences (they are null), but the
whole-chicken difference is computed from a zero count whenever the
inventory balance is present. -/
theorem c3_amended (stock : Grid) (inv gp gw : Option ℚ) :
    (gizzardPacksSum stock = 0 →
      (calculate_current_differences stock inv gp gw).2.1 = none) ∧
    (gizzardWeightSum stock = 0 →
      (calculate_current_differences stock inv gp gw).2.2 = none) ∧
    (∀ b : ℚ, calculate_total_pieces stock = 0 →
      (calculate_current_differences stock (some b) gp gw).1 =
        some (pyInt (0 - b))) := by
  refine ⟨?_, ?_, ?_⟩
  · intro h
    cases gp with
    | none => rfl
    | some g =>
      rw [calculate_current_differences_packs, h]
      simp
  · intro h
    cases gw with
    | none => rfl
    | some g =>
      rw [calculate_current_differences_weight, h]
      simp
  · intro b h
    rw [calculate_current_differences_fst, h]
    norm_num

/-- Witness for `c3_amended` at the concrete zero-count grid. -/
theorem c3_amended_witness :
    (calculate_current_differences c3Grid (some 100) none none).1 =
      some (pyInt (0 - 100)) :=
  (c3_amended c3Grid (some 100) none none).2.2 100 total_pieces_c3Grid

/-- C8: saving a valid-shaped snapshot and loading the same key returns the
snapshot unchanged, for a stable encryption key — both for the nullable
scalar difference files and for the 5-row balance grid file. -/
theorem c8_state_roundtrip (key : ℕ) (file : Option EncBlob) :
    (∀ v : Option ℚ,
      load_previous_state_diff key (save_current_state_diff key v file) =
        v) ∧
    (∀ g : Grid, 5 ≤ g.length →
      load_previous_state_grid key (save_current_state_grid key g file) =
        some g) := by
  constructor
  · intro v
    simp [save_current_state_diff, load_previous_state_diff,
      decrypt_state_data, encrypt_state_data]
  · intro g hg
    have h5 : ¬ g.length < 5 := by omega
    simp [save_current_state_grid, load_previous_state_grid,
      decrypt_state_data, encrypt_state_data, h5]

/-- Witness for `c8_state_roundtrip` at a concrete grid and key. -/
theorem c8_state_roundtrip_witness :
    load_previous_state_grid 7
        (save_current_state_grid 7 witnessGrid none) = some witnessGrid :=
  (c8_state_roundtrip 7 none).2 witnessGrid (by decide)

/-- C6 counterexample: with a previous grid of 12 row-0 columns and a
1-row current grid of 1 row-0 column (drift 11 > 10), the detector does
return the empty change list, but the baseline reset is skipped by the
save validation (the current grid has fewer than 5 rows), so the stored
baseline is not the current grid. -/
theorem c6_counterexample :
    detect_balance_changes (some c6Prev) c6Curr none 0 =
      .ok ([], none) ∧
      10 < (((c6Prev.headD []).length : ℤ) -
        ((c6Curr.headD []).length : ℤ)).natAbs ∧
      (none : Option EncBlob) ≠ some (encrypt_state_data 0 (.grid c6Curr)) :=
  ⟨by decide, by decide, by decide⟩

/-- C6 amended: for every non-empty previous grid and every current grid
with at least 5 rows whose row-0 column counts differ by more than 10,
`detect_balance_changes` returns the empty change list and resets the
stored baseline to the current grid; when the current grid has fewer than
5 rows the change list is still empty but the reset is skipped by the
save-shape validation. -/
theorem c6_amended (p cur : Grid) (store : Option EncBlob) (key : ℕ)
    (hp : p ≠ []) (hcur : 5 ≤ cur.length)
    (hdrift : 10 < (((p.headD []).length : ℤ) -
      ((cur.headD []).length : ℤ)).natAbs) :
    detect_balance_changes (some p) cur store key =
      .ok ([], some (encrypt_state_data key (.grid cur))) := by
  simp only [detect_balance_changes]
  rw [if_neg hp]
  by_cases h5 : p.length < 5
  · rw [if_pos (Or.inl h5)]
    unfold save_current_state_grid
    rw [if_neg (by omega)]
  · rw [if_neg (by omega)]
    rw [if_pos hdrift]
    unfold save_current_state_grid
    rw [if_neg (by omega)]

/-- Witness for `c6_amended` at concrete drifting grids. -/
theorem c6_amended_witness :
    detect_balance_changes (some c6Prev) c10WitCurr none 0 =
      .ok ([], some (encrypt_state_data 0 (.grid c10WitCurr))) :=
  c6_amended c6Prev c10WitCurr none 0 (by decide) (by decide) (by decide)

lemma changesStep_error_absorbs (prev_dict : List (PyStr × PyStr))
    (kv : PyStr × PyStr) :
    changesStep prev_dict (.error ()) kv = .error () := rfl

lemma foldl_changesStep_error (prev_dict : List (PyStr × PyStr))
    (l : List (PyStr × PyStr)) :
    l.foldl (changesStep prev_dict) (.error ()) = .error () := by
  induction l with
  | nil => rfl
  | cons a t ih =>
    rw [List.foldl_cons, changesStep_error_absorbs]
    exact ih

lemma length_eq_three_iff (l : List PyStr) :
    l.length = 3 ↔ ∃ a b c, l = [a, b, c] := by
  constructor
  · intro h
    match l, h with
    | [a, b, c], _ => exact ⟨a, b, c, rfl⟩
  · rintro ⟨a, b, c, rfl⟩
    rfl

lemma changesStep_bad (prev_dict : List (PyStr × PyStr))
    (changes : List ChangeRecord) (kv : PyStr × PyStr)
    (h : badKV prev_dict kv) :
    changesStep prev_dict (.ok changes) kv = .error () := by
  obtain ⟨hne, hlen⟩ := h
  simp only [changesStep]
  rw [if_neg hne]
  rcases hsplit : List.splitOn '|' kv.1 with _ | ⟨a, _ | ⟨b, _ | ⟨c, _ | ⟨d, t⟩⟩⟩⟩ <;>
    first
    | rfl
    | (exact absurd (by rw [hsplit]; rfl) hlen)

lemma changesStep_ok (prev_dict : List (PyStr × PyStr))
    (changes : List ChangeRecord) (kv : PyStr × PyStr)
    (h : ¬ badKV prev_dict kv) :
    ∃ cs, changesStep prev_dict (.ok changes) kv = .ok cs := by
  simp only [changesStep]
  by_cases heq : pyStrip (dictGetD prev_dict kv.1 []) = pyStrip kv.2
  · rw [if_pos heq]
    exact ⟨changes, rfl⟩
  · rw [if_neg heq]
    have hlen : (List.splitOn '|' kv.1).length = 3 := by
      by_contra hlen
      exact h ⟨heq, hlen⟩
    obtain ⟨a, b, c, habc⟩ := (length_eq_three_iff _).mp hlen
    rw [habc]
    simp only
    split
    · exact ⟨changes, rfl⟩
    · exact ⟨_, rfl⟩

lemma foldl_changesStep_error_of_bad (prev_dict : List (PyStr × PyStr))
    (l : List (PyStr × PyStr)) (acc : List ChangeRecord)
    (h : ∃ kv ∈ l, badKV prev_dict kv) :
    l.foldl (changesStep prev_dict) (.ok acc) = .error () := by
  induction l generalizing acc with
  | nil =>
    obtain ⟨kv, hmem, _⟩ := h
    cases hmem
  | cons a t ih =>
    rw [List.foldl_cons]
    by_cases hb : badKV prev_dict a
    · rw [changesStep_bad _ _ _ hb]
      exact foldl_changesStep_error _ t
    · obtain ⟨kv, hmem, hbad⟩ := h
      rcases List.mem_cons.mp hmem with rfl | hmem2
      · exact absurd hbad hb
      · obtain ⟨cs, hcs⟩ := changesStep_ok prev_dict acc a hb
        rw [hcs]
        exact ih cs ⟨kv, hmem2, hbad⟩

/-- C10 counterexample: the previous grid contains a column whose product
contains `|` (key `A|B|G|M`, held at value 1) and that key is absent from
the current grid's index — yet `detect_balance_changes` raises nothing and
returns the ordinary change list, because the change loop iterates only
over the current dictionary's keys. -/
theorem c10_counterexample :
    (∃ c ∈ parse_balance_data c10Prev, pyContains ['|'] c.product = true) ∧
      dictGetD (buildDict (parse_balance_data c10Prev))
        "A|B|G|M".toList [] = "1".toList ∧
      (∀ kv ∈ buildDict (parse_balance_data c10Curr),
        kv.1 ≠ "A|B|G|M".toList) ∧
      detect_balance_changes (some c10Prev) c10Curr none 0 =
        .ok ([⟨"C".toList, "H".toList, "N".toList, "2".toList,
          "9".toList⟩], none) :=
  ⟨by decide, by decide, by decide, by decide⟩

/-- C10 amended: whenever the current grid's index contains an entry whose
key does not split into exactly three `|`-separated components (some
component contains `|`) and whose stripped value differs from the previous
one (a missing previous value reading as empty), and the early
reset branches are not taken, `detect_balance_changes` raises an error
instead of returning a change list; a `|`-containing column appearing only
in the previous grid triggers nothing. -/
theorem c10_amended (p cur : Grid) (store : Option EncBlob) (key : ℕ)
    (hp5 : 5 ≤ p.length) (hc5 : 5 ≤ cur.length)
    (hdrift : (((p.headD []).length : ℤ) -
      ((cur.headD []).length : ℤ)).natAbs ≤ 10)
    (hbad : ∃ kv ∈ buildDict (parse_balance_data cur),
      badKV (buildDict (parse_balance_data p)) kv) :
    detect_balance_changes (some p) cur store key = .error () := by
  simp only [detect_balance_changes]
  rw [if_neg (by rintro rfl; simp at hp5)]
  rw [if_neg (by omega)]
  rw [if_neg (by omega)]
  rw [foldl_changesStep_error_of_bad _ _ _ hbad]

/-- Witness for `c10_amended`: a current column with product `A|B` whose
value changed from 5 to 7. -/
theorem c10_amended_witness :
    detect_balance_changes (some c10WitPrev) c10WitCurr none 0 =
      .error () :=
  c10_amended c10WitPrev c10WitCurr none 0 (by decide) (by decide)
    (by decide) (by decide)

lemma retryAux_succ (tr : ℕ → AttemptOutcome) (i fuel : ℕ) :
    retryAux tr i (fuel + 1) =
      match attemptExn (tr i) with
      | none => (none, 1)
      | some e =>
        if should_retry_webhook e then
          if fuel = 0 then (some .retryError, 1)
          else
            ((retryAux tr (i + 1) fuel).1, (retryAux tr (i + 1) fuel).2 + 1)
        else (some e, 1) := rfl

lemma runRetry_trace503 : runRetry trace503 = (some .retryError, 5) := by
  decide

lemma runRetry_const_4xx (c : ℕ) (h4 : 400 ≤ c) (h5 : c < 500) :
    runRetry (fun _ => .status c) = (some (.httpError c), 1) := by
  unfold runRetry
  rw [retryAux_succ]
  simp only [attemptExn]
  rw [if_neg (by omega)]
  have hsr : should_retry_webhook (.httpError c) = false := by
    simp only [should_retry_webhook]
    rw [if_pos ⟨h4, h5⟩]
  simp [hsr]

lemma breakerCall_closed_counted (n now : ℕ) (tr : ℕ → AttemptOutcome)
    (e : WebhookExn) (k : ℕ) (hrun : runRetry tr = (some e, k))
    (hex : breakerExcluded e = false) (hn : n + 1 < fail_max) :
    breakerCall (.closed n) now tr = (some e, k, .closed (n + 1)) := by
  unfold breakerCall
  rw [hrun]
  simp [hex, Nat.not_le.mpr hn]

lemma breakerCall_closed_opens (n now : ℕ) (tr : ℕ → AttemptOutcome)
    (e : WebhookExn) (k : ℕ) (hrun : runRetry tr = (some e, k))
    (hex : breakerExcluded e = false) (hn : fail_max ≤ n + 1) :
    breakerCall (.closed n) now tr =
      (some .circuitBreakerError, k, .opened now) := by
  unfold breakerCall
  rw [hrun]
  simp [hex, hn]

lemma breakerCall_closed_excluded (n now : ℕ) (tr : ℕ → AttemptOutcome)
    (e : WebhookExn) (k : ℕ) (hrun : runRetry tr = (some e, k))
    (hex : breakerExcluded e = true) :
    breakerCall (.closed n) now tr = (some e, k, .closed 0) := by
  unfold breakerCall
  rw [hrun]
  simp [hex]

lemma breakerCall_open_cooldown (t0 now : ℕ) (tr : ℕ → AttemptOutcome)
    (h : now < t0 + reset_timeout) :
    breakerCall (.opened t0) now tr =
      (some .circuitBreakerError, 0, .opened t0) := by
  simp only [breakerCall]
  rw [if_pos h]

lemma send_combined_alert_failure (p u : String) (brk : BreakerState)
    (now : ℕ) (tr : ℕ → AttemptOutcome) (dlq : List FailedWebhook)
    (e : WebhookExn) (k : ℕ) (brk2 : BreakerState)
    (h : breakerCall brk now tr = (some e, k, brk2)) :
    send_combined_alert true p u brk now tr dlq =
      ⟨false, brk2, save_failed_webhook p e u now dlq, k⟩ := by
  unfold send_combined_alert
  rw [if_neg (by simp)]
  rw [h]

/-- C1 counterexample: one delivery whose 5 attempts all return HTTP 503
appends exactly one dead-letter entry, but leaves the circuit breaker
closed with a consecutive-failure count of 1 — not open — and a subsequent
delivery still performs all 5 network attempts instead of being rejected
immediately. -/
theorem c1_counterexample :
    (send_combined_alert true "card" "url" (.closed 0) 0 trace503
        []).dlq.length = 1 ∧
      (send_combined_alert true "card" "url" (.closed 0) 0 trace503
        []).breaker = .closed 1 ∧
      (send_combined_alert true "card" "url" (.closed 0) 0 trace503
        []).breaker.isOpen = false ∧
      (send_combined_alert true "card" "url" (.closed 1) 60 trace503
        []).attemptsMade = 5 :=
  ⟨by decide, by decide, by decide, by decide⟩

/-- C1 amended: a delivery whose 5 attempts all return HTTP 503 appends
exactly one dead-letter entry and increments the breaker's
consecutive-failure count by one; the breaker opens on the fifth such
consecutive failed delivery call, and while open within the 60-second
cooldown it rejects immediately with zero network attempts (still
appending a dead-letter entry); an HTTP 4xx delivery is never counted
toward the breaker's tally (it resets the count, as all `HTTPError`s are
excluded) and makes exactly one attempt. -/
theorem c1_amended :
    (∀ (n t : ℕ) (dlq : List FailedWebhook) (p u : String), n + 1 < 5 →
      send_combined_alert true p u (.closed n) t trace503 dlq =
        ⟨false, .closed (n + 1),
          save_failed_webhook p .retryError u t dlq, 5⟩) ∧
    (∀ (t : ℕ) (dlq : List FailedWebhook) (p u : String),
      send_combined_alert true p u (.closed 4) t trace503 dlq =
        ⟨false, .opened t,
          save_failed_webhook p .circuitBreakerError u t dlq, 5⟩) ∧
    (∀ (t0 t : ℕ) (tr : ℕ → AttemptOutcome) (dlq : List FailedWebhook)
        (p u : String), t < t0 + 60 →
      send_combined_alert true p u (.opened t0) t tr dlq =
        ⟨false, .opened t0,
          save_failed_webhook p .circuitBreakerError u t dlq, 0⟩) ∧
    (∀ (n c t : ℕ) (dlq : List FailedWebhook) (p u : String),
        400 ≤ c → c < 500 →
      send_combined_alert true p u (.closed n) t (fun _ => .status c) dlq =
        ⟨false, .closed 0,
          save_failed_webhook p (.httpError c) u t dlq, 1⟩) := by
  refine ⟨?_, ?_, ?_, ?_⟩
  · intro n t dlq p u hn
    exact send_combined_alert_failure p u _ t trace503 dlq _ 5 _
      (breakerCall_closed_counted n t trace503 .retryError 5
        runRetry_trace503 rfl hn)
  · intro t dlq p u
    exact send_combined_alert_failure p u _ t trace503 dlq _ 5 _
      (breakerCall_closed_opens 4 t trace503 .retryError 5
        runRetry_trace503 rfl (by decide))
  · intro t0 t tr dlq p u h
    exact send_combined_alert_failure p u _ t tr dlq _ 0 _
      (breakerCall_open_cooldown t0 t tr h)
  · intro n c t dlq p u h4 h5
    exact send_combined_alert_failure p u _ t _ dlq _ 1 _
      (breakerCall_closed_excluded n t _ (.httpError c) 1
        (runRetry_const_4xx c h4 h5) rfl)

/-- Witness for `c1_amended`: a single all-503 delivery from a fresh
breaker. -/
theorem c1_amended_witness :
    send_combined_alert true "card" "url" (.closed 0) 0 trace503 [] =
      ⟨false, .closed 1, save_failed_webhook "card" .retryError "url" 0 [],
        5⟩ :=
  c1_amended.1 0 0 [] "card" "url" (by decide)

/-- C9: every entry of the dead-letter queue after a delivery either was
already in the queue or has its `attempts` field equal to 5, whatever the
number of attempts actually made — and a single non-retryable 404 delivery
makes exactly one attempt yet records `attempts = 5`. -/
theorem c9_dlq_attempts_always_five :
    (∀ (hasChanges : Bool) (p u : String) (brk : BreakerState) (now : ℕ)
        (tr : ℕ → AttemptOutcome) (dlq : List FailedWebhook),
      ∀ r ∈ (send_combined_alert hasChanges p u brk now tr dlq).dlq,
        r ∈ dlq ∨ r.attempts = 5) ∧
    (∀ (p u : String) (now : ℕ) (dlq : List FailedWebhook) (n : ℕ),
      (send_combined_alert true p u (.closed n) now
          (fun _ => .status 404) dlq).attemptsMade = 1 ∧
        (send_combined_alert true p u (.closed n) now
            (fun _ => .status 404) dlq).dlq =
          dlq ++ [⟨p, u, .httpError 404, now, 5, "failed"⟩]) := by
  constructor
  · intro hasChanges p u brk now tr dlq r hr
    unfold send_combined_alert at hr
    by_cases hch : hasChanges = false
    · rw [if_pos hch] at hr
      exact Or.inl hr
    · rw [if_neg hch] at hr
      rcases hb : breakerCall brk now tr with ⟨ro, k, brk2⟩
      rw [hb] at hr
      cases ro with
      | none => cases hr
      | some e =>
        simp only [save_failed_webhook] at hr
        rcases List.mem_append.mp hr with hr | hr
        · exact Or.inl hr
        · rw [List.mem_singleton.mp hr]
          exact Or.inr rfl
  · intro p u now dlq n
    rw [send_combined_alert_failure p u _ now _ dlq _ 1 _
      (breakerCall_closed_excluded n now _ (.httpError 404) 1
        (runRetry_const_4xx 404 (by omega) (by omega)) rfl)]
    exact ⟨rfl, rfl⟩

/-- Witness for `c9_dlq_attempts_always_five` at a concrete 404 trace. -/
theorem c9_dlq_attempts_always_five_witness :
    (⟨"card", "url", .httpError 404, 0, 5, "failed"⟩ : FailedWebhook) ∈
        ([] : List FailedWebhook) ∨
      (⟨"card", "url", .httpError 404, 0, 5, "failed"⟩ :
        FailedWebhook).attempts = 5 :=
  c9_dlq_attempts_always_five.1 true "card" "url" (.closed 0) 0
    (fun _ => .status 404) []
    ⟨"card", "url", .httpError 404, 0, 5, "failed"⟩ (by decide)

lemma mainDeliverAndPersist_stores (key : ℕ) (bd : Grid)
    (inv gp gw : Option ℚ) (bc : List ChangeRecord)
    (cc gc : List ScalarChange) (p u : String) (brk : BreakerState)
    (now : ℕ) (tr : ℕ → AttemptOutcome) (dlq : List FailedWebhook)
    (s : Stores) :
    (mainDeliverAndPersist key bd inv gp gw bc cc gc p u brk now tr dlq
        s).1 =
      ⟨save_current_state_grid key bd s.balance,
        save_current_state_diff key
          ((calculate_current_differences bd inv gp gw).1.map fun z =>
            (z : ℚ)) s.chickenDiff,
        save_current_state_diff key
          (calculate_current_differences bd inv gp gw).2.1
          s.gizzardPacksDiff,
        save_current_state_diff key
          (calculate_current_differences bd inv gp gw).2.2
          s.gizzardWeightDiff⟩ := rfl

/-- C4: for every run reaching the delivery step, the four state files
persisted at end of run are the same whatever the delivery environment
(success, retries exhausted, or breaker-open rejection), and — whenever
the fetched balance grid has its guaranteed 5 rows — they hold exactly the
freshly computed current snapshot. -/
theorem c4_persist_regardless (key : ℕ) (balance_data : Grid)
    (inv gp gw : Option ℚ) (bc : List ChangeRecord)
    (cc gc : List ScalarChange) (p u : String) (dlq : List FailedWebhook)
    (s : Stores) :
    (∀ (brk1 brk2 : BreakerState) (now1 now2 : ℕ)
        (tr1 tr2 : ℕ → AttemptOutcome),
      (mainDeliverAndPersist key balance_data inv gp gw bc cc gc p u brk1
          now1 tr1 dlq s).1 =
        (mainDeliverAndPersist key balance_data inv gp gw bc cc gc p u brk2
          now2 tr2 dlq s).1) ∧
    (∀ (brk : BreakerState) (now : ℕ) (tr : ℕ → AttemptOutcome),
      5 ≤ balance_data.length →
      (mainDeliverAndPersist key balance_data inv gp gw bc cc gc p u brk
          now tr dlq s).1 =
        ⟨some (encrypt_state_data key (.grid balance_data)),
          some (encrypt_state_data key (.scalar
            ((calculate_current_differences balance_data inv gp gw).1.map
              fun z => (z : ℚ)))),
          some (encrypt_state_data key (.scalar
            (calculate_current_differences balance_data inv gp gw).2.1)),
          some (encrypt_state_data key (.scalar
            (calculate_current_differences balance_data inv gp gw).2.2))⟩) := by
  constructor
  · intro brk1 brk2 now1 now2 tr1 tr2
    rw [mainDeliverAndPersist_stores, mainDeliverAndPersist_stores]
  · intro brk now tr h
    rw [mainDeliverAndPersist_stores]
    unfold save_current_state_grid save_current_state_diff
    rw [if_neg (by omega)]

/-- Witness for `c4_persist_regardless` at a concrete grid and
environment. -/
theorem c4_persist_regardless_witness :
    (mainDeliverAndPersist 0 witnessGrid none none none [] [] [] "card"
        "url" (.closed 0) 0 trace503 [] ⟨none, none, none, none⟩).1 =
      ⟨some (encrypt_state_data 0 (.grid witnessGrid)),
        some (encrypt_state_data 0 (.scalar
          ((calculate_current_differences witnessGrid none none none).1.map
            fun z => (z : ℚ)))),
        some (encrypt_state_data 0 (.scalar
          (calculate_current_differences witnessGrid none none none).2.1)),
        some (encrypt_state_data 0 (.scalar
          (calculate_current_differences witnessGrid none none
            none).2.2))⟩ :=
  (c4_persist_regardless 0 witnessGrid none none none [] [] [] "card"
    "url" [] ⟨none, none, none, none⟩).2 (.closed 0) 0 trace503 (by decide)

end KadunaMonitor
